import Mathlib

/-!
The package `config` of cloudstate-operator: stateful service configuration.

A shallow embedding of `pkg/config/statefulservice_config.go`:

* the configuration records and `NewStatefulServiceConfigWithDefaults`;
* `ToResourceRequirements`, with `resource.ParseQuantity` (k8s.io/apimachinery)
  taken as a parameter;
* the example document `exampleStatefulServiceConfig` and
  `SetExampleStatefulServiceConfigMap`;
* `ParseStatefulServiceFromConfigMapWithDefaults`, over a model of the
  `yaml.Unmarshal` call it makes.

Go pointers to strings are `Option String`, `int32` fields are `Int` (the range
is checked where a value is decoded), Go maps are association lists with unique
keys, and a Go result pair `(*T, error)` is a pair of options.
-/

namespace Cloudstate.Config

/-! ## Data model (source lines 126-159) -/

/-- Record `StatefulServiceAutoscalerConfig`. -/
structure StatefulServiceAutoscalerConfig where
  Enabled : Bool
  MinReplicas : Int
  MaxReplicas : Int
  CpuUtilizationThreshold : Int
  deriving DecidableEq, Repr

/-- Record `StatefulServiceResourceConfig`; `CpuLimit` is a `*string` in the source. -/
structure StatefulServiceResourceConfig where
  CpuRequest : String
  CpuLimit : Option String
  MemoryRequest : String
  MemoryLimit : String
  deriving DecidableEq, Repr

/-- Record `StatefulServiceProxyConfig`; `Image` is a `*string`, `ImagePullPolicy`
a `corev1.PullPolicy`, which is a string type. -/
structure StatefulServiceProxyConfig where
  Image : Option String
  ImagePullPolicy : String
  Resources : StatefulServiceResourceConfig
  InitialHeapSize : String
  MaxHeapSize : String
  deriving DecidableEq, Repr

/-- Record `StatefulServiceUserFunctionConfig`. -/
structure StatefulServiceUserFunctionConfig where
  Resources : StatefulServiceResourceConfig
  deriving DecidableEq, Repr

/-- Record `StatefulServiceConfig`, the root of the configuration. -/
structure StatefulServiceConfig where
  Autoscaler : StatefulServiceAutoscalerConfig
  Proxy : StatefulServiceProxyConfig
  UserFunction : StatefulServiceUserFunctionConfig
  deriving DecidableEq, Repr

/-- The Go zero value of `StatefulServiceResourceConfig`. -/
def StatefulServiceResourceConfig.zero : StatefulServiceResourceConfig :=
  { CpuRequest := "", CpuLimit := none, MemoryRequest := "", MemoryLimit := "" }

/-- The Go zero value `StatefulServiceConfig{}`. -/
def StatefulServiceConfig.zero : StatefulServiceConfig :=
  { Autoscaler := { Enabled := false, MinReplicas := 0, MaxReplicas := 0,
                    CpuUtilizationThreshold := 0 },
    Proxy := { Image := none, ImagePullPolicy := "",
               Resources := StatefulServiceResourceConfig.zero,
               InitialHeapSize := "", MaxHeapSize := "" },
    UserFunction := { Resources := StatefulServiceResourceConfig.zero } }

/-- The constant `corev1.PullIfNotPresent` of k8s.io/api. -/
def PullIfNotPresent : String := "IfNotPresent"

/-! ## Default builder (source lines 88-108) -/

/-- Function `NewStatefulServiceConfigWithDefaults`: the zero value, then the
thirteen assignments of the source, in the source's order. -/
def NewStatefulServiceConfigWithDefaults : StatefulServiceConfig :=
  let config := StatefulServiceConfig.zero
  let config := { config with Autoscaler := { config.Autoscaler with Enabled := true } }
  let config := { config with Autoscaler := { config.Autoscaler with MinReplicas := 1 } }
  let config := { config with Autoscaler := { config.Autoscaler with MaxReplicas := 10 } }
  let config :=
    { config with Autoscaler := { config.Autoscaler with CpuUtilizationThreshold := 80 } }
  let config := { config with Proxy := { config.Proxy with ImagePullPolicy := PullIfNotPresent } }
  let config := { config with Proxy := { config.Proxy with MaxHeapSize := "256m" } }
  let config := { config with Proxy := { config.Proxy with InitialHeapSize := "256m" } }
  let config := { config with Proxy := { config.Proxy with
    Resources := { config.Proxy.Resources with CpuRequest := "400m" } } }
  let config := { config with Proxy := { config.Proxy with
    Resources := { config.Proxy.Resources with MemoryRequest := "512Mi" } } }
  let config := { config with Proxy := { config.Proxy with
    Resources := { config.Proxy.Resources with MemoryLimit := "512Mi" } } }
  let config := { config with UserFunction := { config.UserFunction with
    Resources := { config.UserFunction.Resources with CpuRequest := "400m" } } }
  let config := { config with UserFunction := { config.UserFunction with
    Resources := { config.UserFunction.Resources with MemoryRequest := "512Mi" } } }
  let config := { config with UserFunction := { config.UserFunction with
    Resources := { config.UserFunction.Resources with MemoryLimit := "512Mi" } } }
  config

/-! ## Quantity translator (source lines 161-192) -/

/-- Type `corev1.ResourceName`, a string type. -/
abbrev ResourceName := String

/-- The constant `corev1.ResourceCPU`. -/
def ResourceCPU : ResourceName := "cpu"

/-- The constant `corev1.ResourceMemory`. -/
def ResourceMemory : ResourceName := "memory"

/-- A Go map with string keys: an association list in which every key occurs once. -/
abbrev GoMap (V : Type) := List (String × V)

/-- Go map assignment `m[k] = v`: replaces the entry of `k`, or adds one. -/
def GoMap.set {V : Type} : GoMap V → String → V → GoMap V
  | [], k, v => [(k, v)]
  | (k', v') :: rest, k, v =>
    if k' = k then (k, v) :: rest else (k', v') :: GoMap.set rest k v

/-- Go map read `v, ok := m[k]`: the entry of `k`, if there is one. -/
def GoMap.get? {V : Type} : GoMap V → String → Option V
  | [], _ => none
  | (k', v') :: rest, k => if k' = k then some v' else GoMap.get? rest k

/-- The keys of a Go map. -/
def GoMap.keys {V : Type} (m : GoMap V) : List String :=
  m.map Prod.fst

/-- Type `corev1.ResourceList`, a Go map from resource names to quantities. -/
abbrev ResourceList (Q : Type) := GoMap Q

/-- Record `corev1.ResourceRequirements`, restricted to the two fields the source sets. -/
structure ResourceRequirements (Q : Type) where
  Requests : ResourceList Q
  Limits : ResourceList Q

/-- The error value built by `fmt.Errorf` with a `%w` verb: the formatted
message and the error it wraps. -/
structure WrapError (E : Type) where
  msg : String
  err : E

/-- The format `"error parsing <what> '%s': %w"` applied to a raw string and an
error whose `Error()` text is `errText`. -/
def errorParsing (what raw errText : String) : String :=
  "error parsing " ++ what ++ " \x27" ++ raw ++ "\x27: " ++ errText

/-- Method `ToResourceRequirements`. `ParseQuantity` stands for
`resource.ParseQuantity` and `Error` for the `Error()` method of the errors it
returns; neither is part of this repository. The result is the Go pair
`(*corev1.ResourceRequirements, error)`, `none` standing for `nil`. -/
def ToResourceRequirements {Q E : Type} (ParseQuantity : String → Except E Q)
    (Error : E → String) (r : StatefulServiceResourceConfig) :
    Option (ResourceRequirements Q) × Option (WrapError E) :=
  match ParseQuantity r.CpuRequest with
  | .error err =>
    (none, some { msg := errorParsing "CPU request" r.CpuRequest (Error err), err := err })
  | .ok cpuRequest =>
  match ParseQuantity r.MemoryRequest with
  | .error err =>
    (none, some { msg := errorParsing "memory request" r.MemoryRequest (Error err), err := err })
  | .ok memoryRequest =>
  match ParseQuantity r.MemoryLimit with
  | .error err =>
    (none, some { msg := errorParsing "memory limit" r.MemoryLimit (Error err), err := err })
  | .ok memoryLimit =>
  let requirements : ResourceRequirements Q :=
    { Requests := GoMap.set (GoMap.set [] ResourceCPU cpuRequest)
        ResourceMemory memoryRequest,
      Limits := GoMap.set [] ResourceMemory memoryLimit }
  match r.CpuLimit with
  | some raw =>
    match ParseQuantity raw with
    | .error err =>
      (none, some { msg := errorParsing "CPU limit" raw (Error err), err := err })
    | .ok cpuLimit =>
      (some { requirements with Limits := GoMap.set requirements.Limits ResourceCPU cpuLimit },
        none)
  | none => (some requirements, none)

/-- The four quantity fields of a resource block in the order in which
`ToResourceRequirements` is specified to parse them, each with the words its
error message uses for it; `CpuLimit` takes part only when it is present. -/
def quantityFields (r : StatefulServiceResourceConfig) : List (String × String) :=
  [("CPU request", r.CpuRequest), ("memory request", r.MemoryRequest),
   ("memory limit", r.MemoryLimit)] ++
  (match r.CpuLimit with
   | some raw => [("CPU limit", raw)]
   | none => [])

/-- The first field of a list, in order, that `ParseQuantity` rejects: its
words, its raw string and the parse error. -/
def firstFailure {Q E : Type} (ParseQuantity : String → Except E Q) :
    List (String × String) → Option (String × String × E)
  | [] => none
  | (what, raw) :: rest =>
    match ParseQuantity raw with
    | .error err => some (what, raw, err)
    | .ok _ => firstFailure ParseQuantity rest

/-- Whether `ParseQuantity` rejects a string. -/
def parseFails {Q E : Type} (ParseQuantity : String → Except E Q) (raw : String) : Bool :=
  match ParseQuantity raw with
  | .error _ => true
  | .ok _ => false

/-! ### A quantity parser for concrete inputs -/

/-- A quantity, in thousandths of a unit. -/
structure Quantity where
  milli : Nat
  deriving DecidableEq, Repr

/-- The one parse error of `parseQuantity`. -/
inductive QuantityError where
  | malformed
  deriving DecidableEq, Repr

/-- The `Error()` text of a `QuantityError`. -/
def QuantityError.Error : QuantityError → String
  | .malformed => "malformed quantity"

/-- Splits the leading decimal digits off a character list, accumulating their value. -/
def takeDigits : List Char → Nat → Nat → Nat × Nat × List Char
  | [], acc, n => (acc, n, [])
  | c :: cs, acc, n =>
    if 48 ≤ c.toNat ∧ c.toNat ≤ 57 then takeDigits cs (acc * 10 + (c.toNat - 48)) (n + 1)
    else (acc, n, c :: cs)

/-- The suffix table of section 4.3 and 6 of the specification: the number of
thousandths of a unit that one unit of the suffix stands for. -/
def suffixMilli : List Char → Option Nat
  | [] => some 1000
  | ['m'] => some 1
  | ['k'] => some (1000 * 1000)
  | ['M'] => some (1000 ^ 2 * 1000)
  | ['G'] => some (1000 ^ 3 * 1000)
  | ['T'] => some (1000 ^ 4 * 1000)
  | ['P'] => some (1000 ^ 5 * 1000)
  | ['K', 'i'] => some (1024 * 1000)
  | ['M', 'i'] => some (1024 ^ 2 * 1000)
  | ['G', 'i'] => some (1024 ^ 3 * 1000)
  | ['T', 'i'] => some (1024 ^ 4 * 1000)
  | ['P', 'i'] => some (1024 ^ 5 * 1000)
  | _ => none

/-- Modelled from the spec: `resource.ParseQuantity` belongs to
k8s.io/apimachinery and is not part of this repository. This is the fragment of
section 4.3 that concrete inputs of this development need: an unsigned integer
literal followed by a suffix of the table, or by none; the empty string, a
sign and an unknown suffix are parse errors. Decimal fractions are outside the
fragment. Every general statement about `ToResourceRequirements` is made for an
arbitrary parser; this one only instantiates them. -/
def parseQuantity (s : String) : Except QuantityError Quantity :=
  match takeDigits s.data 0 0 with
  | (_, 0, _) => .error .malformed
  | (value, _ + 1, suffix) =>
    match suffixMilli suffix with
    | some unit => .ok { milli := value * unit }
    | none => .error .malformed

/-! ## The example document (source lines 12-86 and 110-113) -/

/-- The lines of the raw string literal `exampleStatefulServiceConfig`, one per
source line 21 to 86: the literal opens with a line break, so the first line is
empty, and it closes right after a line break, so the last one is empty too. -/
def exampleStatefulServiceConfigLines : List String :=
  [
   "",
   "# Settings for the autoscaler",
   "autoscaler:",
   "",
   "  # Whether the autoscaler should be enabled or not",
   "  # enabled: true",
   "",
   "  # The minimum number of replicas to scale down to",
   "  # minReplicas: 1",
   "",
   "  # The maximum number of replicas to scale up to",
   "  # maxReplicas: 10",
   "",
   "  # The average CPU utilization threshold, at which point the autoscaler will",
   "  # scale up or down, as a percentage of requested CPU",
   "  # cpuUtilizationThreshold: 80",
   "",
   "# Settings for the proxy",
   "proxy:",
   "",
   "  # The image, setting this will override the image selected by the operator for",
   "  # the configured stateful store.",
   "  # image: gcr.io/cloudstateengine/cloudstate-proxy-postgres-native:1.2.3",
   "",
   "  # The image pull policy",
   "  # imagePullPolicy: IfNotPresent",
   "",
   "  # Proxy resource requirements",
   "  resources:",
   "",
   "    # The CPU request",
   "    # cpuRequest: 400m",
   "",
   "    # The CPU limit - is not set by default, and is generally a bad idea",
   "    # cpuLimit:",
   "",
   "    # The memory request",
   "    # memoryRequest: 512Mi",
   "",
   "    # The memory limit",
   "    # memoryLimit: 512Mi",
   "",
   "  # The max heap size for the proxy JVM",
   "  # maxHeapSize: 256m",
   "",
   "  # The initial heap size for the proxy JVM",
   "  # initialHeapSize: 256m",
   "",
   "# Settings for the user function",
   "userFunction:",
   "",
   "  # User function resource requirements",
   "  resources:",
   "",
   "    # The CPU request",
   "    # cpuRequest: 400m",
   "",
   "    # The CPU limit - is not set by default, and is generally a bad idea",
   "    # cpuLimit:",
   "",
   "    # The memory request",
   "    # memoryRequest: 512Mi",
   "",
   "    # The memory limit",
   "    # memoryLimit: 512Mi",
   ""
  ]

/-- Constant `exampleStatefulServiceConfig`: its lines, joined by line breaks. -/
def exampleStatefulServiceConfig : String :=
  String.intercalate "\n" exampleStatefulServiceConfigLines

/-- Record `corev1.ConfigMap`, restricted to its `Data` field, a
`map[string]string`; `none` is the nil map. -/
structure ConfigMap where
  Data : Option (GoMap String)
  deriving DecidableEq, Repr

/-- Go map read `configMap.Data[key]`: the zero value `""` for a missing key and
for the nil map. -/
def ConfigMap.read (configMap : ConfigMap) (key : String) : String :=
  match configMap.Data with
  | none => ""
  | some m => (GoMap.get? m key).getD ""

/-- Function `SetExampleStatefulServiceConfigMap`. It updates the config map in
place; here it returns the updated config map. An assignment into a nil map
panics: `none`. -/
def SetExampleStatefulServiceConfigMap (configMap : ConfigMap) : Option ConfigMap :=
  match configMap.Data with
  | none => none
  | some m => some { configMap with
      Data := some (GoMap.set m "config.yaml" exampleStatefulServiceConfig) }

/-- The lines of a text: the pieces between line breaks. -/
def splitLines : List Char → List (List Char)
  | [] => [[]]
  | c :: cs =>
    if c = '\n' then [] :: splitLines cs
    else
      match splitLines cs with
      | [] => [[c]]
      | l :: ls => (c :: l) :: ls

/-- Whether a line ends in a space or a tab. -/
def endsInBlank : List Char → Bool
  | [] => false
  | [c] => c = ' ' || c = '\t'
  | _ :: c :: cs => endsInBlank (c :: cs)

/-- Whether no line of a text ends in a space or a tab. -/
def noTrailingWhitespace (text : String) : Bool :=
  (splitLines text.data).all fun l => !endsInBlank l

/-- Whether `p` is an initial segment of `l`. -/
def startsWith : List Char → List Char → Bool
  | [], _ => true
  | _ :: _, [] => false
  | a :: p, b :: l => a = b && startsWith p l

/-- Removes the leading spaces of a line. -/
def dropSpaces : List Char → List Char
  | [] => []
  | c :: cs => if c = ' ' then dropSpaces cs else c :: cs

/-- Whether some line of a text is, after its indentation, a comment that
opens with `# <name>:`. -/
def hasCommentedKey (text : String) (name : String) : Bool :=
  (splitLines text.data).any fun l =>
    startsWith ('#' :: ' ' :: (name.data ++ [':'])) (dropSpaces l)

/-- The keys of the schema: the `yaml` tags of the scalar fields of the
configuration records (source lines 133-159). -/
def schemaFieldNames : List String :=
  ["enabled", "minReplicas", "maxReplicas", "cpuUtilizationThreshold",
   "image", "imagePullPolicy", "initialHeapSize", "maxHeapSize",
   "cpuRequest", "cpuLimit", "memoryRequest", "memoryLimit"]

/-! ## Overlay merge: the `yaml.Unmarshal` call (source lines 5-7 and 118) -/

/-- Modelled from the spec: part of the model of `yaml.Unmarshal`, which is not in the
repository. The value that yaml.v3 resolves a scalar to: null, a boolean, an integer, a
float (with the integer it equals, if any), a timestamp, or a string, which is the text
of the scalar itself. -/
inductive Resolved where
  | null
  | bool (b : Bool)
  | int (i : Int)
  | float (integral : Option Int)
  | timestamp
  | str
  deriving DecidableEq, Repr

/-- Modelled from the spec: part of the model of `yaml.Unmarshal`, which is not in the
repository. A node of a parsed document: a scalar with its text and the value it
resolves to, a mapping from scalar keys to nodes, in document order, or a sequence.
Anchors, aliases, explicit tags, merge keys (`<<`) and keys that are null or not scalars
are outside this model. -/
inductive Node where
  | scalar (value : String) (resolved : Resolved)
  | mapping (content : List (String × Node))
  | sequence (content : List Node)

/-- Modelled from the spec: part of the model of `yaml.Unmarshal`, which is not in the
repository. One entry of the type error that `yaml.Unmarshal` returns. -/
inductive DecodeError where
  | cannotUnmarshal (what : String) (into : String)
  | keyAlreadyDefined (key : String)
  deriving DecidableEq, Repr

/-- Modelled from the spec: part of the model of `yaml.Unmarshal`, which is not in the
repository. The error of `yaml.Unmarshal`: a syntax error of the document, or the type
errors met while decoding it. -/
inductive YamlError where
  | malformedDocument (msg : String)
  | typeErrors (errors : List DecodeError)
  deriving DecidableEq, Repr

/-- Modelled from the spec: part of the model of `yaml.Unmarshal`, which is not in the
repository. The keys of a mapping that repeat an earlier key, one error for each. -/
def duplicateKeys : List String → List DecodeError
  | [] => []
  | k :: ks => (ks.filter (· = k)).map DecodeError.keyAlreadyDefined ++ duplicateKeys ks

/-- Modelled from the spec: part of the model of `yaml.Unmarshal`, which is not in the
repository. Decoding a mapping into a Go value that is not a struct: the duplicate keys
are reported if there are any, the mismatch otherwise. -/
def mappingMismatch (content : List (String × Node)) (into : String) : List DecodeError :=
  match duplicateKeys (content.map Prod.fst) with
  | [] => [.cannotUnmarshal "!!map" into]
  | errs => errs

/-- Modelled from the spec: part of the model of `yaml.Unmarshal`, which is not in the
repository. Decoding a node into a `string` field (also `corev1.PullPolicy`): null
leaves the field alone, any other scalar stores its text. -/
def decodeString (n : Node) (out : String) : String × List DecodeError :=
  match n with
  | .scalar _ .null => (out, [])
  | .scalar value _ => (value, [])
  | .mapping content => (out, mappingMismatch content "string")
  | .sequence _ => (out, [.cannotUnmarshal "!!seq" "string"])

/-- Modelled from the spec: part of the model of `yaml.Unmarshal`, which is not in the
repository. Decoding a node into a `*string` field: null sets the pointer to nil, any
other scalar makes it point to the scalar's text; for other nodes a nil pointer is
allocated before the mismatch is found. -/
def decodeStringPtr (n : Node) (out : Option String) : Option String × List DecodeError :=
  match n with
  | .scalar _ .null => (none, [])
  | .scalar value _ => (some value, [])
  | .mapping content => (some (out.getD ""), mappingMismatch content "string")
  | .sequence _ => (some (out.getD ""), [.cannotUnmarshal "!!seq" "string"])

/-- Whether an integer is a value of `int32`. -/
def fitsInt32 (i : Int) : Bool :=
  decide (-2147483648 ≤ i) && decide (i ≤ 2147483647)

/-- Modelled from the spec: part of the model of `yaml.Unmarshal`, which is not in the
repository. Decoding a node into an `int32` field: null leaves the field alone; an
integer, or a float that equals one, is stored when it is in range. -/
def decodeInt32 (n : Node) (out : Int) : Int × List DecodeError :=
  match n with
  | .scalar _ .null => (out, [])
  | .scalar _ (.int i) =>
    if fitsInt32 i then (i, []) else (out, [.cannotUnmarshal "!!int" "int32"])
  | .scalar _ (.float (some i)) =>
    if fitsInt32 i then (i, []) else (out, [.cannotUnmarshal "!!float" "int32"])
  | .scalar _ (.float none) => (out, [.cannotUnmarshal "!!float" "int32"])
  | .scalar _ (.bool _) => (out, [.cannotUnmarshal "!!bool" "int32"])
  | .scalar _ .timestamp => (out, [.cannotUnmarshal "!!timestamp" "int32"])
  | .scalar _ .str => (out, [.cannotUnmarshal "!!str" "int32"])
  | .mapping content => (out, mappingMismatch content "int32")
  | .sequence _ => (out, [.cannotUnmarshal "!!seq" "int32"])

/-- Modelled from the spec: part of the model of `yaml.Unmarshal`, which is not in the
repository. Decoding a node into a `bool` field: null leaves the field alone; a boolean
is stored, and so are the YAML 1.1 spellings of one. -/
def decodeBool (n : Node) (out : Bool) : Bool × List DecodeError :=
  match n with
  | .scalar _ .null => (out, [])
  | .scalar _ (.bool b) => (b, [])
  | .scalar value .str =>
    if value ∈ ["y", "Y", "yes", "Yes", "YES", "on", "On", "ON"] then (true, [])
    else if value ∈ ["n", "N", "no", "No", "NO", "off", "Off", "OFF"] then (false, [])
    else (out, [.cannotUnmarshal "!!str" "bool"])
  | .scalar _ (.int _) => (out, [.cannotUnmarshal "!!int" "bool"])
  | .scalar _ (.float _) => (out, [.cannotUnmarshal "!!float" "bool"])
  | .scalar _ .timestamp => (out, [.cannotUnmarshal "!!timestamp" "bool"])
  | .mapping content => (out, mappingMismatch content "bool")
  | .sequence _ => (out, [.cannotUnmarshal "!!seq" "bool"])

/-- Modelled from the spec: part of the model of `yaml.Unmarshal`, which is not in the
repository. Decoding a node into a struct whose fields `field` decodes by key: null
leaves the struct alone; a mapping without duplicate keys hands each entry, in document
order, to `field`; every other node is a type error and leaves the struct alone. -/
def decodeStruct {S : Type} (into : String)
    (field : String → Node → S → S × List DecodeError) (n : Node) (out : S) :
    S × List DecodeError :=
  match n with
  | .scalar _ .null => (out, [])
  | .scalar _ _ => (out, [.cannotUnmarshal "scalar" into])
  | .sequence _ => (out, [.cannotUnmarshal "!!seq" into])
  | .mapping content =>
    match duplicateKeys (content.map Prod.fst) with
    | [] =>
      content.foldl
        (fun acc kv => let r := field kv.1 kv.2 acc.1; (r.1, acc.2 ++ r.2))
        (out, [])
    | errs => (out, errs)

/-- The fields of `StatefulServiceResourceConfig` by `yaml` tag; an unknown key
is ignored. -/
def resourceField (key : String) (n : Node) (out : StatefulServiceResourceConfig) :
    StatefulServiceResourceConfig × List DecodeError :=
  if key = "cpuRequest" then
    let r := decodeString n out.CpuRequest; ({ out with CpuRequest := r.1 }, r.2)
  else if key = "cpuLimit" then
    let r := decodeStringPtr n out.CpuLimit; ({ out with CpuLimit := r.1 }, r.2)
  else if key = "memoryRequest" then
    let r := decodeString n out.MemoryRequest; ({ out with MemoryRequest := r.1 }, r.2)
  else if key = "memoryLimit" then
    let r := decodeString n out.MemoryLimit; ({ out with MemoryLimit := r.1 }, r.2)
  else (out, [])

/-- The fields of `StatefulServiceAutoscalerConfig` by `yaml` tag. -/
def autoscalerField (key : String) (n : Node) (out : StatefulServiceAutoscalerConfig) :
    StatefulServiceAutoscalerConfig × List DecodeError :=
  if key = "enabled" then
    let r := decodeBool n out.Enabled; ({ out with Enabled := r.1 }, r.2)
  else if key = "minReplicas" then
    let r := decodeInt32 n out.MinReplicas; ({ out with MinReplicas := r.1 }, r.2)
  else if key = "maxReplicas" then
    let r := decodeInt32 n out.MaxReplicas; ({ out with MaxReplicas := r.1 }, r.2)
  else if key = "cpuUtilizationThreshold" then
    let r := decodeInt32 n out.CpuUtilizationThreshold
    ({ out with CpuUtilizationThreshold := r.1 }, r.2)
  else (out, [])

/-- The fields of `StatefulServiceProxyConfig` by `yaml` tag. -/
def proxyField (key : String) (n : Node) (out : StatefulServiceProxyConfig) :
    StatefulServiceProxyConfig × List DecodeError :=
  if key = "image" then
    let r := decodeStringPtr n out.Image; ({ out with Image := r.1 }, r.2)
  else if key = "imagePullPolicy" then
    let r := decodeString n out.ImagePullPolicy; ({ out with ImagePullPolicy := r.1 }, r.2)
  else if key = "resources" then
    let r := decodeStruct "config.StatefulServiceResourceConfig" resourceField n out.Resources
    ({ out with Resources := r.1 }, r.2)
  else if key = "initialHeapSize" then
    let r := decodeString n out.InitialHeapSize; ({ out with InitialHeapSize := r.1 }, r.2)
  else if key = "maxHeapSize" then
    let r := decodeString n out.MaxHeapSize; ({ out with MaxHeapSize := r.1 }, r.2)
  else (out, [])

/-- The fields of `StatefulServiceUserFunctionConfig` by `yaml` tag. -/
def userFunctionField (key : String) (n : Node) (out : StatefulServiceUserFunctionConfig) :
    StatefulServiceUserFunctionConfig × List DecodeError :=
  if key = "resources" then
    let r := decodeStruct "config.StatefulServiceResourceConfig" resourceField n out.Resources
    ({ out with Resources := r.1 }, r.2)
  else (out, [])

/-- The fields of `StatefulServiceConfig` by `yaml` tag. -/
def configField (key : String) (n : Node) (out : StatefulServiceConfig) :
    StatefulServiceConfig × List DecodeError :=
  if key = "autoscaler" then
    let r := decodeStruct "config.StatefulServiceAutoscalerConfig" autoscalerField n
      out.Autoscaler
    ({ out with Autoscaler := r.1 }, r.2)
  else if key = "proxy" then
    let r := decodeStruct "config.StatefulServiceProxyConfig" proxyField n out.Proxy
    ({ out with Proxy := r.1 }, r.2)
  else if key = "userFunction" then
    let r := decodeStruct "config.StatefulServiceUserFunctionConfig" userFunctionField n
      out.UserFunction
    ({ out with UserFunction := r.1 }, r.2)
  else (out, [])

/-- Modelled from the spec: part of the model of `yaml.Unmarshal`, which is not in the
repository. The overlay of a parsed document on a configuration: a text without a
document changes nothing; otherwise the root node is decoded into the struct. -/
def mergeOverlay (document : Option Node) (out : StatefulServiceConfig) :
    StatefulServiceConfig × List DecodeError :=
  match document with
  | none => (out, [])
  | some n => decodeStruct "config.StatefulServiceConfig" configField n out

/-- Modelled from the spec: `yaml.Unmarshal` belongs to gopkg.in/yaml.v3 and is
not part of this repository. The model follows section 4.2: the document is
decoded onto the configuration it is given, a key that the document omits
leaves its field untouched, a key that it gives replaces the field, a null
clears an optional field, nested sections are merged field by field, unknown
keys are ignored, and a malformed document is an error. Where section 4.2 is
silent, the model keeps what the source relies on yaml.v3 for (source lines
5-6: a key without a value leaves a field that is not optional alone) and
yaml.v3's type errors for a value of the wrong kind, for a number out of range
and for a repeated key. `parse` stands for the YAML syntax: it turns a text into
the root node of its first document, `none` when the text holds no document.
The result is the updated configuration and the Go error. -/
def Unmarshal (parse : String → Except String (Option Node)) (data : String)
    (out : StatefulServiceConfig) : StatefulServiceConfig × Option YamlError :=
  match parse data with
  | .error msg => (out, some (.malformedDocument msg))
  | .ok document =>
    match mergeOverlay document out with
    | (out', []) => (out', none)
    | (out', errs) => (out', some (.typeErrors errs))

/-- Function `ParseStatefulServiceFromConfigMapWithDefaults`; the result is the
Go pair `(*StatefulServiceConfig, error)`. -/
def ParseStatefulServiceFromConfigMapWithDefaults
    (parse : String → Except String (Option Node)) (configMap : ConfigMap) :
    Option StatefulServiceConfig × Option YamlError :=
  let config := NewStatefulServiceConfigWithDefaults
  match Unmarshal parse (configMap.read "config.yaml") config with
  | (_, some err) => (none, some err)
  | (config, none) => (some config, none)

/-! ### A fragment of the YAML syntax -/

/-- A line of the fragment that holds a key: its indentation, the key, and the
scalar after the colon, if there is one. -/
structure Entry where
  indent : Nat
  key : String
  value : Option Node

/-- The number of leading spaces of a line, and the rest of the line. -/
def leadingSpaces : List Char → Nat × List Char
  | [] => (0, [])
  | c :: cs =>
    if c = ' ' then ((leadingSpaces cs).1 + 1, (leadingSpaces cs).2) else (0, c :: cs)

/-- Whether a character is an ASCII letter. -/
def isLetter (c : Char) : Bool :=
  (decide (65 ≤ c.toNat) && decide (c.toNat ≤ 90)) ||
  (decide (97 ≤ c.toNat) && decide (c.toNat ≤ 122))

/-- Whether a character is an ASCII digit. -/
def isDecimalDigit (c : Char) : Bool :=
  decide (48 ≤ c.toNat) && decide (c.toNat ≤ 57)

/-- The leading letters and digits of a line, and the rest of the line. -/
def takeWord : List Char → List Char × List Char
  | [] => ([], [])
  | c :: cs =>
    if isLetter c || isDecimalDigit c then (c :: (takeWord cs).1, (takeWord cs).2)
    else ([], c :: cs)

/-- The value of a list of decimal digits. -/
def digitsValue (cs : List Char) : Nat :=
  cs.foldl (fun acc c => acc * 10 + (c.toNat - 48)) 0

/-- Whether a character list is a decimal literal without a leading zero. -/
def isDecimalLiteral : List Char → Bool
  | [] => false
  | ['0'] => true
  | c :: cs => c ≠ '0' && (c :: cs).all isDecimalDigit

/-- Whether a character may stand between the quotes of a quoted scalar of the
fragment: printable ASCII other than the quote and the backslash. -/
def isPlainText (c : Char) : Bool :=
  decide (32 ≤ c.toNat) && decide (c.toNat ≤ 126) && c ≠ '"' && c ≠ '\\'

/-- The text between the quotes of a double-quoted scalar of the fragment. -/
def quotedText : List Char → Option (List Char)
  | '"' :: cs =>
    match cs.reverse with
    | '"' :: body => if body.all isPlainText then some body.reverse else none
    | _ => none
  | _ => none

/-- The scalar of the fragment that a token after `key: ` denotes: `null` and
`~` are null, `true` and `false` booleans, a decimal literal with an optional
minus sign an integer, a double-quoted text without escapes a string. -/
def scalarToken (tok : List Char) : Option Node :=
  if tok = "null".data ∨ tok = "~".data then some (.scalar (String.mk tok) .null)
  else if tok = "true".data then some (.scalar "true" (.bool true))
  else if tok = "false".data then some (.scalar "false" (.bool false))
  else if isDecimalLiteral tok then some (.scalar (String.mk tok) (.int (digitsValue tok)))
  else
    match tok with
    | '-' :: digits =>
      if isDecimalLiteral digits then
        some (.scalar (String.mk tok) (.int (-(digitsValue digits : Int))))
      else none
    | _ =>
      match quotedText tok with
      | some body => some (.scalar (String.mk body) .str)
      | none => none

/-- One line of the fragment: `some none` for a blank line and for a comment
line, `some (some e)` for `<spaces>key:` and for `<spaces>key: <scalar>`, where
the key is a letter followed by letters and digits and is not a spelling of
null, and `none` for every other line. -/
def classifyLine (line : List Char) : Option (Option Entry) :=
  match leadingSpaces line with
  | (_, []) => some none
  | (_, '#' :: _) => some none
  | (indent, c :: rest) =>
    if isLetter c then
      match takeWord (c :: rest) with
      | (key, [':']) =>
        if key = "null".data ∨ key = "Null".data ∨ key = "NULL".data then none
        else some (some { indent := indent, key := String.mk key, value := none })
      | (key, ':' :: ' ' :: tok) =>
        if key = "null".data ∨ key = "Null".data ∨ key = "NULL".data then none
        else
          match scalarToken tok with
          | some v => some (some { indent := indent, key := String.mk key, value := some v })
          | none => none
      | _ => none
    else none

/-- The entries of the lines of a text, `none` if a line is outside the fragment. -/
def classifyLines : List (List Char) → Option (List Entry)
  | [] => some []
  | l :: ls =>
    match classifyLine l, classifyLines ls with
    | some none, some es => some es
    | some (some e), some es => some (e :: es)
    | _, _ => none

/-- The block mapping at indentation `indent` that a list of entries opens with,
and the entries after it. A key without a scalar is null unless the next entry
is indented deeper, in which case the block that starts there is its value.
An entry indented deeper than its block, or deeper than a key that has a
scalar, is outside the fragment. `fuel` bounds the number of calls. -/
def parseBlock : Nat → Nat → List Entry → Option (List (String × Node) × List Entry)
  | 0, _, _ => none
  | _ + 1, _, [] => some ([], [])
  | fuel + 1, indent, e :: rest =>
    if e.indent < indent then some ([], e :: rest)
    else if indent < e.indent then none
    else
      match e.value with
      | some v =>
        match parseBlock fuel indent rest with
        | some (more, after) => some ((e.key, v) :: more, after)
        | none => none
      | none =>
        match rest with
        | [] => some ([(e.key, .scalar "" .null)], [])
        | c :: _ =>
          if indent < c.indent then
            match parseBlock fuel c.indent rest with
            | some (children, after) =>
              match parseBlock fuel indent after with
              | some (more, after') => some ((e.key, .mapping children) :: more, after')
              | none => none
            | none => none
          else
            match parseBlock fuel indent rest with
            | some (more, after) => some ((e.key, .scalar "" .null) :: more, after)
            | none => none

/-- Modelled from the spec: the YAML syntax that `yaml.Unmarshal` reads is that
of gopkg.in/yaml.v3, which is not part of this repository. This is the fragment
of it that the example document and the documents of section 8 are written in:
blank lines, comment lines, and block mappings of `key:` and `key: <scalar>`
lines nested by indentation. The result is `none` for a text outside the
fragment, `some none` for a text without a document (no key at all), and the
root mapping otherwise. -/
def yamlFragment (text : String) : Option (Option Node) :=
  match classifyLines (splitLines text.data) with
  | none => none
  | some [] => some none
  | some (e :: es) =>
    match parseBlock (2 * (es.length + 1) + 1) e.indent (e :: es) with
    | some (content, []) => some (some (.mapping content))
    | _ => none

/-- A YAML syntax that reads the texts of the fragment and rejects every other text. -/
def fragmentParse (text : String) : Except String (Option Node) :=
  match yamlFragment text with
  | some document => .ok document
  | none => .error "outside the fragment"

/-- The node tree of the example document: three sections without a value of
their own, two of them with a `resources` section without a value. -/
def exampleDocument : Node :=
  .mapping
    [("autoscaler", .scalar "" .null),
     ("proxy", .mapping [("resources", .scalar "" .null)]),
     ("userFunction", .mapping [("resources", .scalar "" .null)])]

/-! ### Documents of the testable properties -/

/-- The entries of a mapping node; other nodes have none. -/
def Node.entries : Node → List (String × Node)
  | .mapping content => content
  | _ => []

/-- The scalar that a document writes for a boolean. -/
def boolNode (b : Bool) : Node := .scalar (toString b) (.bool b)

/-- The scalar that a document writes for an integer. -/
def intNode (i : Int) : Node := .scalar (toString i) (.int i)

/-- The scalar that a document writes for a string: a quoted scalar with that text. -/
def strNode (v : String) : Node := .scalar v .str

/-- The scalar that a document writes for an optional string: `null` when absent. -/
def optNode : Option String → Node
  | none => .scalar "null" .null
  | some v => strNode v

/-- A field of a resource block together with a value of its type. -/
inductive ResourceSetting where
  | cpuRequest (v : String)
  | cpuLimit (v : Option String)
  | memoryRequest (v : String)
  | memoryLimit (v : String)

/-- A field of the schema, at any nesting level, together with a value of its type. -/
inductive FieldSetting where
  | autoscalerEnabled (v : Bool)
  | autoscalerMinReplicas (v : Int)
  | autoscalerMaxReplicas (v : Int)
  | autoscalerCpuUtilizationThreshold (v : Int)
  | proxyImage (v : Option String)
  | proxyImagePullPolicy (v : String)
  | proxyInitialHeapSize (v : String)
  | proxyMaxHeapSize (v : String)
  | proxyResources (f : ResourceSetting)
  | userFunctionResources (f : ResourceSetting)

/-- The entry `key: value` of a resource block that sets one field. -/
def ResourceSetting.entry : ResourceSetting → String × Node
  | .cpuRequest v => ("cpuRequest", strNode v)
  | .cpuLimit v => ("cpuLimit", optNode v)
  | .memoryRequest v => ("memoryRequest", strNode v)
  | .memoryLimit v => ("memoryLimit", strNode v)

/-- The resource block in which one field has the given value. -/
def ResourceSetting.assign (f : ResourceSetting) (r : StatefulServiceResourceConfig) :
    StatefulServiceResourceConfig :=
  match f with
  | .cpuRequest v => { r with CpuRequest := v }
  | .cpuLimit v => { r with CpuLimit := v }
  | .memoryRequest v => { r with MemoryRequest := v }
  | .memoryLimit v => { r with MemoryLimit := v }

/-- The document that sets one field and nothing else. -/
def FieldSetting.document : FieldSetting → Node
  | .autoscalerEnabled v => .mapping [("autoscaler", .mapping [("enabled", boolNode v)])]
  | .autoscalerMinReplicas v => .mapping [("autoscaler", .mapping [("minReplicas", intNode v)])]
  | .autoscalerMaxReplicas v => .mapping [("autoscaler", .mapping [("maxReplicas", intNode v)])]
  | .autoscalerCpuUtilizationThreshold v =>
    .mapping [("autoscaler", .mapping [("cpuUtilizationThreshold", intNode v)])]
  | .proxyImage v => .mapping [("proxy", .mapping [("image", optNode v)])]
  | .proxyImagePullPolicy v => .mapping [("proxy", .mapping [("imagePullPolicy", strNode v)])]
  | .proxyInitialHeapSize v => .mapping [("proxy", .mapping [("initialHeapSize", strNode v)])]
  | .proxyMaxHeapSize v => .mapping [("proxy", .mapping [("maxHeapSize", strNode v)])]
  | .proxyResources f => .mapping [("proxy", .mapping [("resources", .mapping [f.entry])])]
  | .userFunctionResources f =>
    .mapping [("userFunction", .mapping [("resources", .mapping [f.entry])])]

/-- The configuration in which one field has the given value and every other
field is that of `c`. -/
def FieldSetting.assign (f : FieldSetting) (c : StatefulServiceConfig) :
    StatefulServiceConfig :=
  match f with
  | .autoscalerEnabled v => { c with Autoscaler := { c.Autoscaler with Enabled := v } }
  | .autoscalerMinReplicas v => { c with Autoscaler := { c.Autoscaler with MinReplicas := v } }
  | .autoscalerMaxReplicas v => { c with Autoscaler := { c.Autoscaler with MaxReplicas := v } }
  | .autoscalerCpuUtilizationThreshold v =>
    { c with Autoscaler := { c.Autoscaler with CpuUtilizationThreshold := v } }
  | .proxyImage v => { c with Proxy := { c.Proxy with Image := v } }
  | .proxyImagePullPolicy v => { c with Proxy := { c.Proxy with ImagePullPolicy := v } }
  | .proxyInitialHeapSize v => { c with Proxy := { c.Proxy with InitialHeapSize := v } }
  | .proxyMaxHeapSize v => { c with Proxy := { c.Proxy with MaxHeapSize := v } }
  | .proxyResources f =>
    { c with Proxy := { c.Proxy with Resources := f.assign c.Proxy.Resources } }
  | .userFunctionResources f =>
    { c with UserFunction := { c.UserFunction with
        Resources := f.assign c.UserFunction.Resources } }

/-- Whether the value of a setting is a value of the field's Go type: the
integer fields are `int32`. -/
def FieldSetting.wellTyped : FieldSetting → Bool
  | .autoscalerMinReplicas v => fitsInt32 v
  | .autoscalerMaxReplicas v => fitsInt32 v
  | .autoscalerCpuUtilizationThreshold v => fitsInt32 v
  | _ => true

/-- Whether a document has no `cpuLimit` key in a `resources` block of a
`proxy` section. -/
def omitsProxyCpuLimit : Option Node → Bool
  | none => true
  | some root =>
    root.entries.all fun sect =>
      sect.1 != "proxy" ||
      sect.2.entries.all fun block =>
        block.1 != "resources" || block.2.entries.all fun field => field.1 != "cpuLimit"

/-! ## Statements -/

/-! ## Go maps -/

theorem GoMap.get?_set {V : Type} (m : GoMap V) (k : String) (v : V) :
    GoMap.get? (GoMap.set m k v) k = some v := by
  induction m with
  | nil => simp [GoMap.set, GoMap.get?]
  | cons kv rest ih =>
    obtain ⟨k', v'⟩ := kv
    by_cases h : k' = k
    · simp [GoMap.set, GoMap.get?, h]
    · simp [GoMap.set, GoMap.get?, h, ih]


/-- C1. `NewStatefulServiceConfigWithDefaults` is a constant (no input, no
failure) and it is the configuration with Autoscaler = (true, 1, 10, 80),
Proxy = (Image absent, IfNotPresent, heap sizes "256m", resources
("400m", absent, "512Mi", "512Mi")), and with UserFunction.Resources equal to
Proxy.Resources. -/
theorem NewStatefulServiceConfigWithDefaults_eq :
    NewStatefulServiceConfigWithDefaults =
      { Autoscaler := { Enabled := true, MinReplicas := 1, MaxReplicas := 10,
                        CpuUtilizationThreshold := 80 },
        Proxy := { Image := none, ImagePullPolicy := "IfNotPresent",
                   Resources := { CpuRequest := "400m", CpuLimit := none,
                                  MemoryRequest := "512Mi", MemoryLimit := "512Mi" },
                   InitialHeapSize := "256m", MaxHeapSize := "256m" },
        UserFunction := { Resources := { CpuRequest := "400m", CpuLimit := none,
                                         MemoryRequest := "512Mi",
                                         MemoryLimit := "512Mi" } } } ∧
    NewStatefulServiceConfigWithDefaults.UserFunction.Resources =
      NewStatefulServiceConfigWithDefaults.Proxy.Resources :=
  ⟨rfl, rfl⟩

/-- C2. When `CpuLimit` is absent and the three other fields parse,
`ToResourceRequirements` succeeds; Requests has exactly the keys CPU and Memory,
mapped to the parsed `CpuRequest` and `MemoryRequest`; Limits has exactly the
key Memory, mapped to the parsed `MemoryLimit`, and no CPU entry. -/
theorem ToResourceRequirements_cpu_limit_absent {Q E : Type}
    (ParseQuantity : String → Except E Q) (Error : E → String)
    (r : StatefulServiceResourceConfig) (cpuRequest memoryRequest memoryLimit : Q)
    (hlimit : r.CpuLimit = none)
    (hcpu : ParseQuantity r.CpuRequest = .ok cpuRequest)
    (hmem : ParseQuantity r.MemoryRequest = .ok memoryRequest)
    (hlim : ParseQuantity r.MemoryLimit = .ok memoryLimit) :
    ∃ req : ResourceRequirements Q,
      ToResourceRequirements ParseQuantity Error r = (some req, none) ∧
      req.Requests.keys = [ResourceCPU, ResourceMemory] ∧
      req.Requests.get? ResourceCPU = some cpuRequest ∧
      req.Requests.get? ResourceMemory = some memoryRequest ∧
      req.Limits.keys = [ResourceMemory] ∧
      req.Limits.get? ResourceMemory = some memoryLimit ∧
      req.Limits.get? ResourceCPU = none := by
  refine ⟨{ Requests := [(ResourceCPU, cpuRequest), (ResourceMemory, memoryRequest)],
             Limits := [(ResourceMemory, memoryLimit)] }, ?_, ?_⟩
  · simp [ToResourceRequirements, hcpu, hmem, hlim, hlimit, GoMap.set, ResourceCPU,
      ResourceMemory]
  · simp [GoMap.get?, GoMap.keys, ResourceCPU, ResourceMemory]

/-- C2 at the default resource block: Requests = (CPU: 400m, Memory: 512Mi),
Limits = (Memory: 512Mi), and Limits has no CPU entry. -/
theorem ToResourceRequirements_cpu_limit_absent_witness :
    ∃ req : ResourceRequirements Quantity,
      ToResourceRequirements parseQuantity QuantityError.Error
        { CpuRequest := "400m", CpuLimit := none, MemoryRequest := "512Mi",
          MemoryLimit := "512Mi" } = (some req, none) ∧
      req.Requests.keys = [ResourceCPU, ResourceMemory] ∧
      req.Requests.get? ResourceCPU = some { milli := 400 } ∧
      req.Requests.get? ResourceMemory = some { milli := 512 * 1024 ^ 2 * 1000 } ∧
      req.Limits.keys = [ResourceMemory] ∧
      req.Limits.get? ResourceMemory = some { milli := 512 * 1024 ^ 2 * 1000 } ∧
      req.Limits.get? ResourceCPU = none :=
  ToResourceRequirements_cpu_limit_absent parseQuantity QuantityError.Error
    { CpuRequest := "400m", CpuLimit := none, MemoryRequest := "512Mi",
      MemoryLimit := "512Mi" } _ _ _ rfl rfl rfl rfl

/-- C3. When the three mandatory fields of `c` parse and `s` parses as `q`,
`ToResourceRequirements` on `c` with `CpuLimit` set to `s` succeeds, its Limits
maps CPU to `q`, and its Requests and its Limits entry for Memory are those
produced for `c` with `CpuLimit` absent. -/
theorem ToResourceRequirements_cpu_limit_present {Q E : Type}
    (ParseQuantity : String → Except E Q) (Error : E → String)
    (c : StatefulServiceResourceConfig) (s : String)
    (cpuRequest memoryRequest memoryLimit q : Q)
    (hcpu : ParseQuantity c.CpuRequest = .ok cpuRequest)
    (hmem : ParseQuantity c.MemoryRequest = .ok memoryRequest)
    (hlim : ParseQuantity c.MemoryLimit = .ok memoryLimit)
    (hs : ParseQuantity s = .ok q) :
    ∃ absent present : ResourceRequirements Q,
      ToResourceRequirements ParseQuantity Error { c with CpuLimit := none } =
        (some absent, none) ∧
      ToResourceRequirements ParseQuantity Error { c with CpuLimit := some s } =
        (some present, none) ∧
      present.Limits.get? ResourceCPU = some q ∧
      present.Limits.keys = [ResourceMemory, ResourceCPU] ∧
      present.Requests = absent.Requests ∧
      present.Limits.get? ResourceMemory = absent.Limits.get? ResourceMemory := by
  refine ⟨{ Requests := [(ResourceCPU, cpuRequest), (ResourceMemory, memoryRequest)],
             Limits := [(ResourceMemory, memoryLimit)] },
          { Requests := [(ResourceCPU, cpuRequest), (ResourceMemory, memoryRequest)],
             Limits := [(ResourceMemory, memoryLimit), (ResourceCPU, q)] }, ?_, ?_, ?_⟩
  · simp [ToResourceRequirements, hcpu, hmem, hlim, GoMap.set, ResourceCPU,
      ResourceMemory]
  · simp [ToResourceRequirements, hcpu, hmem, hlim, hs, GoMap.set, ResourceCPU,
      ResourceMemory]
  · simp [GoMap.get?, GoMap.keys, ResourceCPU, ResourceMemory]

/-- C3 at the default resource block with `cpuLimit` "1": Limits gains
CPU = 1 (one core, 1000 thousandths) and Requests is unchanged. -/
theorem ToResourceRequirements_cpu_limit_present_witness :
    ∃ absent present : ResourceRequirements Quantity,
      ToResourceRequirements parseQuantity QuantityError.Error
        { NewStatefulServiceConfigWithDefaults.Proxy.Resources with CpuLimit := none } =
        (some absent, none) ∧
      ToResourceRequirements parseQuantity QuantityError.Error
        { NewStatefulServiceConfigWithDefaults.Proxy.Resources with CpuLimit := some "1" } =
        (some present, none) ∧
      present.Limits.get? ResourceCPU = some { milli := 1000 } ∧
      present.Limits.keys = [ResourceMemory, ResourceCPU] ∧
      present.Requests = absent.Requests ∧
      present.Limits.get? ResourceMemory = absent.Limits.get? ResourceMemory :=
  ToResourceRequirements_cpu_limit_present parseQuantity QuantityError.Error
    NewStatefulServiceConfigWithDefaults.Proxy.Resources "1"
    { milli := 400 } { milli := 512 * 1024 ^ 2 * 1000 } { milli := 512 * 1024 ^ 2 * 1000 }
    { milli := 1000 } rfl rfl rfl rfl

/-- C4. `ToResourceRequirements` returns an error exactly when `CpuRequest`,
`MemoryRequest`, `MemoryLimit` or a present `CpuLimit` fails to parse; with
`CpuLimit` absent the error depends on the three mandatory fields alone; an
error comes with a nil result and a nil error with a non-nil result. -/
theorem ToResourceRequirements_error_iff {Q E : Type}
    (ParseQuantity : String → Except E Q) (Error : E → String)
    (r : StatefulServiceResourceConfig) :
    ((ToResourceRequirements ParseQuantity Error r).2.isSome = true ↔
      (parseFails ParseQuantity r.CpuRequest = true ∨
       parseFails ParseQuantity r.MemoryRequest = true ∨
       parseFails ParseQuantity r.MemoryLimit = true ∨
       ∃ raw, r.CpuLimit = some raw ∧ parseFails ParseQuantity raw = true)) ∧
    (r.CpuLimit = none →
      ((ToResourceRequirements ParseQuantity Error r).2.isSome = true ↔
        (parseFails ParseQuantity r.CpuRequest = true ∨
         parseFails ParseQuantity r.MemoryRequest = true ∨
         parseFails ParseQuantity r.MemoryLimit = true))) ∧
    ((ToResourceRequirements ParseQuantity Error r).2.isSome = true →
      (ToResourceRequirements ParseQuantity Error r).1.isNone = true) ∧
    ((ToResourceRequirements ParseQuantity Error r).2 = none →
      (ToResourceRequirements ParseQuantity Error r).1.isSome = true) := by
  obtain ⟨cpuRequest, cpuLimit, memoryRequest, memoryLimit⟩ := r
  simp only [ToResourceRequirements, parseFails]
  cases h1 : ParseQuantity cpuRequest <;> cases h2 : ParseQuantity memoryRequest <;>
    cases h3 : ParseQuantity memoryLimit <;> cases cpuLimit <;> simp
  all_goals
    rename_i raw
    cases h4 : ParseQuantity raw <;> simp

/-- C5. When `ToResourceRequirements` fails, the error is that of the first
field, in the order CpuRequest, MemoryRequest, MemoryLimit, CpuLimit, that
fails to parse: its message is "error parsing", the words for that field, the
field's raw string in quotes and the text of the parse error, and the error it
wraps is that parse error. -/
theorem ToResourceRequirements_error_first_failure {Q E : Type}
    (ParseQuantity : String → Except E Q) (Error : E → String)
    (r : StatefulServiceResourceConfig) (e : WrapError E)
    (herr : (ToResourceRequirements ParseQuantity Error r).2 = some e) :
    ∃ what raw perr,
      firstFailure ParseQuantity (quantityFields r) = some (what, raw, perr) ∧
      ParseQuantity raw = .error perr ∧
      e.msg = "error parsing " ++ what ++ " \x27" ++ raw ++ "\x27: " ++ Error perr ∧
      e.err = perr := by
  obtain ⟨cpuRequest, cpuLimit, memoryRequest, memoryLimit⟩ := r
  simp only [ToResourceRequirements] at herr
  simp only [quantityFields]
  cases h1 : ParseQuantity cpuRequest with
  | error e1 =>
    simp only [h1, Option.some.injEq] at herr
    subst herr
    exact ⟨"CPU request", _, e1, by simp [firstFailure, h1], h1, rfl, rfl⟩
  | ok q1 =>
  cases h2 : ParseQuantity memoryRequest with
  | error e2 =>
    simp only [h1, h2, Option.some.injEq] at herr
    subst herr
    exact ⟨"memory request", _, e2, by simp [firstFailure, h1, h2], h2, rfl, rfl⟩
  | ok q2 =>
  cases h3 : ParseQuantity memoryLimit with
  | error e3 =>
    simp only [h1, h2, h3, Option.some.injEq] at herr
    subst herr
    exact ⟨"memory limit", _, e3, by simp [firstFailure, h1, h2, h3], h3, rfl, rfl⟩
  | ok q3 =>
  cases cpuLimit with
  | none => simp [h1, h2, h3] at herr
  | some raw =>
    cases h4 : ParseQuantity raw with
    | ok q4 => simp [h1, h2, h3, h4] at herr
    | error e4 =>
      simp only [h1, h2, h3, h4, Option.some.injEq] at herr
      subst herr
      exact ⟨"CPU limit", _, e4, by simp [firstFailure, h1, h2, h3, h4], h4, rfl, rfl⟩

/-- C5 at the default resource block with `memoryRequest` "abc": the error is
that of the memory request, its message quotes "abc", and it wraps the parse
error. -/
theorem ToResourceRequirements_error_first_failure_witness :
    (ToResourceRequirements parseQuantity QuantityError.Error
        { CpuRequest := "400m", CpuLimit := none, MemoryRequest := "abc",
          MemoryLimit := "512Mi" }).2 =
      some { msg := "error parsing memory request \x27abc\x27: malformed quantity",
             err := QuantityError.malformed } ∧
    ∃ what raw perr,
      firstFailure parseQuantity (quantityFields
        { CpuRequest := "400m", CpuLimit := none, MemoryRequest := "abc",
          MemoryLimit := "512Mi" }) = some (what, raw, perr) ∧
      parseQuantity raw = .error perr ∧
      "error parsing memory request \x27abc\x27: malformed quantity" =
        "error parsing " ++ what ++ " \x27" ++ raw ++ "\x27: " ++ QuantityError.Error perr ∧
      QuantityError.malformed = perr :=
  ⟨rfl, ToResourceRequirements_error_first_failure parseQuantity QuantityError.Error
    { CpuRequest := "400m", CpuLimit := none, MemoryRequest := "abc", MemoryLimit := "512Mi" }
    { msg := "error parsing memory request \x27abc\x27: malformed quantity",
      err := QuantityError.malformed } rfl⟩

set_option maxRecDepth 100000 in
/-- C9. The example document has no line that ends in a space or a tab, every
schema field name is the key of one of its commented-out lines `# <name>:`, and
`SetExampleStatefulServiceConfigMap` stores that document under "config.yaml". -/
theorem exampleStatefulServiceConfig_layout :
    noTrailingWhitespace exampleStatefulServiceConfig = true ∧
    (∀ name ∈ ["enabled", "minReplicas", "maxReplicas", "cpuUtilizationThreshold", "image",
        "imagePullPolicy", "cpuRequest", "cpuLimit", "memoryRequest", "memoryLimit",
        "maxHeapSize", "initialHeapSize"],
      hasCommentedKey exampleStatefulServiceConfig name = true) ∧
    (∀ name ∈ schemaFieldNames, hasCommentedKey exampleStatefulServiceConfig name = true) ∧
    (∀ m : GoMap String, ∃ m', SetExampleStatefulServiceConfigMap { Data := some m } =
        some { Data := some m' } ∧
      GoMap.get? m' "config.yaml" = some exampleStatefulServiceConfig) := by
  refine ⟨by decide, by decide, by decide, ?_⟩
  intro m
  exact ⟨_, rfl, GoMap.get?_set m _ _⟩

/-! ## Overlay merge -/

set_option maxRecDepth 100000 in
theorem yamlFragment_example :
    yamlFragment exampleStatefulServiceConfig = some (some exampleDocument) := by
  rfl

theorem foldl_preserves {S α : Type} (P : S → α)
    (field : String → Node → S → S × List DecodeError) (content : List (String × Node))
    (h : ∀ kv ∈ content, ∀ acc, P (field kv.1 kv.2 acc).1 = P acc)
    (out : S) (errs : List DecodeError) :
    P (content.foldl (fun acc kv => let r := field kv.1 kv.2 acc.1; (r.1, acc.2 ++ r.2))
      (out, errs)).1 = P out := by
  induction content generalizing out errs with
  | nil => rfl
  | cons kv rest ih =>
    simp only [List.foldl_cons]
    rw [ih (fun kv' hkv' => h kv' (List.mem_cons_of_mem _ hkv'))]
    exact h kv (List.mem_cons_self _ _) out

theorem decodeStruct_preserves {S α : Type} (P : S → α) (into : String)
    (field : String → Node → S → S × List DecodeError) (n : Node) (out : S)
    (h : ∀ kv ∈ n.entries, ∀ acc, P (field kv.1 kv.2 acc).1 = P acc) :
    P (decodeStruct into field n out).1 = P out := by
  cases n with
  | scalar value resolved => cases resolved <;> rfl
  | sequence content => rfl
  | mapping content =>
    simp only [decodeStruct]
    split
    · exact foldl_preserves P field content h out []
    · rfl

theorem resourceField_cpuLimit (key : String) (n : Node) (out : StatefulServiceResourceConfig)
    (h : key ≠ "cpuLimit") : (resourceField key n out).1.CpuLimit = out.CpuLimit := by
  unfold resourceField
  split_ifs <;> rfl

theorem proxyField_cpuLimit (key : String) (n : Node) (out : StatefulServiceProxyConfig)
    (h : key = "resources" → ∀ field ∈ n.entries, field.1 ≠ "cpuLimit") :
    (proxyField key n out).1.Resources.CpuLimit = out.Resources.CpuLimit := by
  unfold proxyField
  split_ifs with h1 h2 h3 h4 h5
  · rfl
  · rfl
  · exact decodeStruct_preserves (fun r => r.CpuLimit) _ resourceField n out.Resources
      (fun kv hkv acc => resourceField_cpuLimit kv.1 kv.2 acc (h h3 kv hkv))
  · rfl
  · rfl
  · rfl

theorem configField_cpuLimit (key : String) (n : Node) (out : StatefulServiceConfig)
    (h : key = "proxy" → ∀ block ∈ n.entries, block.1 = "resources" →
      ∀ field ∈ block.2.entries, field.1 ≠ "cpuLimit") :
    (configField key n out).1.Proxy.Resources.CpuLimit = out.Proxy.Resources.CpuLimit := by
  unfold configField
  split_ifs with h1 h2 h3
  · rfl
  · exact decodeStruct_preserves (fun p => p.Resources.CpuLimit) _ proxyField n out.Proxy
      (fun kv hkv acc => proxyField_cpuLimit kv.1 kv.2 acc (h h2 kv hkv))
  · rfl
  · rfl

theorem mergeOverlay_cpuLimit (document : Option Node) (out : StatefulServiceConfig)
    (h : omitsProxyCpuLimit document = true) :
    (mergeOverlay document out).1.Proxy.Resources.CpuLimit = out.Proxy.Resources.CpuLimit := by
  cases document with
  | none => rfl
  | some root =>
    simp only [omitsProxyCpuLimit, List.all_eq_true, Bool.or_eq_true, bne_iff_ne, ne_eq] at h
    refine decodeStruct_preserves (fun c => c.Proxy.Resources.CpuLimit) _ configField root out ?_
    intro kv hkv acc
    refine configField_cpuLimit kv.1 kv.2 acc ?_
    intro hproxy block hblock hres field hfield
    have h1 := (h kv hkv).resolve_left (fun hne => hne hproxy)
    have h2 := (h1 block hblock).resolve_left (fun hne => hne hres)
    exact h2 field hfield

/-- C7. Single-field isolation: when the "config.yaml" entry of a config map
is the document that sets one schema field, at any nesting level, to a value
of the field's type (false, 0 and "" included) and sets nothing else,
`ParseStatefulServiceFromConfigMapWithDefaults` succeeds and returns the
default configuration with that field equal to that value and every other
field at its default. -/
theorem ParseStatefulServiceFromConfigMapWithDefaults_single_field
    (parse : String → Except String (Option Node)) (configMap : ConfigMap)
    (setting : FieldSetting)
    (hparse : parse (configMap.read "config.yaml") = .ok (some setting.document))
    (htype : setting.wellTyped = true) :
    ParseStatefulServiceFromConfigMapWithDefaults parse configMap =
      (some (setting.assign NewStatefulServiceConfigWithDefaults), none) := by
  simp only [ParseStatefulServiceFromConfigMapWithDefaults, Unmarshal, hparse]
  cases setting with
  | proxyResources f =>
    cases f <;> [skip; (rename_i v; cases v); skip; skip] <;> rfl
  | userFunctionResources f =>
    cases f <;> [skip; (rename_i v; cases v); skip; skip] <;> rfl
  | proxyImage v => cases v <;> rfl
  | autoscalerEnabled v => rfl
  | autoscalerMinReplicas v =>
    simp only [FieldSetting.wellTyped] at htype
    simp [FieldSetting.document, FieldSetting.assign, mergeOverlay, decodeStruct, duplicateKeys,
      configField, autoscalerField, decodeInt32, intNode, htype]
  | autoscalerMaxReplicas v =>
    simp only [FieldSetting.wellTyped] at htype
    simp [FieldSetting.document, FieldSetting.assign, mergeOverlay, decodeStruct, duplicateKeys,
      configField, autoscalerField, decodeInt32, intNode, htype]
  | autoscalerCpuUtilizationThreshold v =>
    simp only [FieldSetting.wellTyped] at htype
    simp [FieldSetting.document, FieldSetting.assign, mergeOverlay, decodeStruct, duplicateKeys,
      configField, autoscalerField, decodeInt32, intNode, htype]
  | _ => rfl

/-- C7 at the document that sets only `autoscaler.enabled` to false: Enabled is
false, and MinReplicas, MaxReplicas, CpuUtilizationThreshold, Proxy and
UserFunction are the defaults. -/
theorem ParseStatefulServiceFromConfigMapWithDefaults_single_field_witness :
    FieldSetting.wellTyped (.autoscalerEnabled false) = true ∧
    ParseStatefulServiceFromConfigMapWithDefaults fragmentParse
      { Data := some [("config.yaml", "autoscaler:\n  enabled: false\n")] } =
      (some { Autoscaler := { Enabled := false, MinReplicas := 1, MaxReplicas := 10,
                              CpuUtilizationThreshold := 80 },
              Proxy := NewStatefulServiceConfigWithDefaults.Proxy,
              UserFunction := NewStatefulServiceConfigWithDefaults.UserFunction }, none) :=
  ⟨rfl, ParseStatefulServiceFromConfigMapWithDefaults_single_field fragmentParse
    { Data := some [("config.yaml", "autoscaler:\n  enabled: false\n")] }
    (.autoscalerEnabled false) (by rfl) rfl⟩

/-- C8. The three states of `CpuLimit` under the overlay merge: a document that
sets `proxy.resources.cpuLimit` to null, merged onto the defaults, leaves them
as they are; a document that sets it to "1" makes it present with value "1";
a document without that key, merged onto a target whose `CpuLimit` is "1",
leaves it at "1". -/
theorem Unmarshal_cpuLimit_tri_state (parse : String → Except String (Option Node)) :
    (∀ data, parse data = .ok (some (FieldSetting.proxyResources (.cpuLimit none)).document) →
      Unmarshal parse data NewStatefulServiceConfigWithDefaults =
        (NewStatefulServiceConfigWithDefaults, none)) ∧
    (∀ data, parse data = .ok (some (FieldSetting.proxyResources (.cpuLimit (some "1"))).document) →
      ∃ config, Unmarshal parse data NewStatefulServiceConfigWithDefaults = (config, none) ∧
        config.Proxy.Resources.CpuLimit = some "1") ∧
    (∀ data document target, parse data = .ok document → omitsProxyCpuLimit document = true →
      target.Proxy.Resources.CpuLimit = some "1" →
      (Unmarshal parse data target).1.Proxy.Resources.CpuLimit = some "1") := by
  refine ⟨?_, ?_, ?_⟩
  · intro data h
    simp only [Unmarshal, h]
    rfl
  · intro data h
    simp only [Unmarshal, h]
    exact ⟨_, rfl, rfl⟩
  · intro data document target hparse homits htarget
    simp only [Unmarshal, hparse]
    rw [← htarget, ← mergeOverlay_cpuLimit document target homits]
    split <;> simp_all


/-- C8 at three texts: `cpuLimit: null` and `cpuLimit: "1"` onto the defaults,
and a document that sets only `cpuRequest` onto the defaults with `CpuLimit`
set to "1". -/
theorem Unmarshal_cpuLimit_tri_state_witness :
    Unmarshal fragmentParse "proxy:\n  resources:\n    cpuLimit: null\n"
        NewStatefulServiceConfigWithDefaults = (NewStatefulServiceConfigWithDefaults, none) ∧
    (∃ config, Unmarshal fragmentParse "proxy:\n  resources:\n    cpuLimit: \"1\"\n"
        NewStatefulServiceConfigWithDefaults = (config, none) ∧
      config.Proxy.Resources.CpuLimit = some "1") ∧
    (Unmarshal fragmentParse "proxy:\n  resources:\n    cpuRequest: \"500m\"\n"
        (FieldSetting.assign (.proxyResources (.cpuLimit (some "1")))
          NewStatefulServiceConfigWithDefaults)).1.Proxy.Resources.CpuLimit = some "1" :=
  ⟨(Unmarshal_cpuLimit_tri_state fragmentParse).1 _ (by rfl),
   (Unmarshal_cpuLimit_tri_state fragmentParse).2.1 _ (by rfl),
   (Unmarshal_cpuLimit_tri_state fragmentParse).2.2
     "proxy:\n  resources:\n    cpuRequest: \"500m\"\n" _ _ (by rfl) (by decide) rfl⟩

/-- C10. Round trip of the shipped example: for every config map with a non-nil
`Data`, `SetExampleStatefulServiceConfigMap` stores the example document under
"config.yaml", and `ParseStatefulServiceFromConfigMapWithDefaults` on the
result succeeds and returns the default configuration, for every YAML reader
that reads the texts of the fragment as the fragment does: the sections that
the example leaves without a value clear no default. -/
theorem ParseStatefulServiceFromConfigMapWithDefaults_example (parse : String → Except String (Option Node))
    (hparse : ∀ text document, yamlFragment text = some document → parse text = .ok document)
    (configMap : ConfigMap) (m : GoMap String) (hdata : configMap.Data = some m) :
    ∃ configMap', SetExampleStatefulServiceConfigMap configMap = some configMap' ∧
      configMap'.read "config.yaml" = exampleStatefulServiceConfig ∧
      ParseStatefulServiceFromConfigMapWithDefaults parse configMap' =
        (some NewStatefulServiceConfigWithDefaults, none) := by
  have hread : ConfigMap.read { configMap with
      Data := some (GoMap.set m "config.yaml" exampleStatefulServiceConfig) } "config.yaml" =
      exampleStatefulServiceConfig := by
    simp [ConfigMap.read, GoMap.get?_set]
  refine ⟨_, by simp only [SetExampleStatefulServiceConfigMap, hdata], hread, ?_⟩
  simp only [ParseStatefulServiceFromConfigMapWithDefaults, Unmarshal, hread,
    hparse _ _ yamlFragment_example]
  rfl

/-- C10 at the config map with an empty `Data`, read by the fragment reader. -/
theorem ParseStatefulServiceFromConfigMapWithDefaults_example_witness :
    (∀ text document, yamlFragment text = some document →
      fragmentParse text = .ok document) ∧
    ∃ configMap', SetExampleStatefulServiceConfigMap { Data := some [] } = some configMap' ∧
      configMap'.read "config.yaml" = exampleStatefulServiceConfig ∧
      ParseStatefulServiceFromConfigMapWithDefaults fragmentParse configMap' =
        (some NewStatefulServiceConfigWithDefaults, none) :=
  ⟨fun text document h => by simp [fragmentParse, h],
   ParseStatefulServiceFromConfigMapWithDefaults_example fragmentParse
     (fun text document h => by simp [fragmentParse, h]) { Data := some [] } [] rfl⟩

end Cloudstate.Config
